import Mathlib

/-!
Verification of the face-attendance system core.

Shallow embedding of the repository's core components:
  * `FaceRecognitionModule` (src/v3_web_app/face_recognition_module.py):
    embedding registry, cosine-similarity search, tolerance threshold.
  * `record_attendance` (src/v3_web_app/database.py): the per-(user, day)
    attendance ledger state machine backed by the SQLite `attendance` table.
  * `process_attendance_guard` (src/v1_basic_local/main.py
    `_process_attendance`, src/v2_google_sheet_pc/main.py): the cooldown
    rate limiter.
  * `update_camera` (src/v1_basic_local/main.py `_update_camera`): the
    frame-throttled recognition scheduler.

Modelling conventions:
  * Python floats are modelled as `ℚ`.  `np.linalg.norm`'s square root is
    modelled by `ratSqrt`, which is exact whenever the numerator and
    denominator of its argument are perfect squares; every concrete input
    used below has a perfect-square squared norm, so no approximation
    error enters any proof.
  * Division by zero follows Lean's `ℚ` convention (`x / 0 = 0`); no claim
    below exercises a zero-norm vector.
  * Python list indexing with an in-range index is modelled by `List.getD`;
    every state exercised by the theorems keeps indices in range.
  * A Python dict is modelled as an association list where assignment
    prepends (the newest binding shadows older ones under `List.lookup`).
  * The SQLite rowid assigned by `INSERT` is modelled as one more than the
    largest id present (`maxId`), matching SQLite's default rowid choice.
  * A raised exception is modelled by a `Bool` component of the result:
    `true` means the call returned normally, `false` that it raised.
-/

namespace FaceAttendance

/-- Sum of squares of a vector's entries (the square of its L2 norm). -/
def sumSq (v : List ℚ) : ℚ := (v.map (fun x => x * x)).sum

/-- Rational square root, exact on rationals whose numerator and denominator
are perfect squares; stands in for the float `np.sqrt`. -/
def ratSqrt (q : ℚ) : ℚ := (Nat.sqrt q.num.toNat : ℚ) / (Nat.sqrt q.den : ℚ)

/-- `np.linalg.norm` of a vector (L2 norm). -/
def l2norm (v : List ℚ) : ℚ := ratSqrt (sumSq v)

/-- `v / np.linalg.norm(v)`: unit-normalization of an embedding. -/
def normalizeVec (v : List ℚ) : List ℚ := v.map (fun x => x / l2norm v)

/-- `np.dot` of two vectors. -/
def dotVec (u v : List ℚ) : ℚ := (List.zipWith (· * ·) u v).sum

/-- `FaceRecognitionModule._compute_similarity` (face_recognition_module.py
lines 84-93): normalize both embeddings and take their dot product — the
cosine similarity. -/
def compute_similarity (embedding1 embedding2 : List ℚ) : ℚ :=
  dotVec (normalizeVec embedding1) (normalizeVec embedding2)

/-- State of `FaceRecognitionModule` (face_recognition_module.py lines
31-54): the registry lists and the cached row-normalized matrix.
`known_embeddings_normalized` is `none` before the first non-empty load and
after a load of the empty list (the Python attribute is then unset or
`None`). -/
structure FaceRecognitionModule where
  tolerance : ℚ
  known_face_encodings : List (List ℚ)
  known_face_names : List String
  known_face_ids : List Nat
  known_embeddings_normalized : Option (List (List ℚ))
deriving DecidableEq

/-- Registry state right after `__init__` (lines 51-54), with the given
`tolerance` argument. -/
def initModule (tolerance : ℚ) : FaceRecognitionModule :=
  { tolerance := tolerance
    known_face_encodings := []
    known_face_names := []
    known_face_ids := []
    known_embeddings_normalized := none }

/-- Whether every embedding in the list has the same length as the first
one.  `np.array` (load line 74) builds a rectangular matrix exactly when
this holds; on a ragged list it raises `ValueError`. -/
def allSameLength : List (List ℚ) → Bool
  | [] => true
  | v :: rest => rest.all (fun w => w.length == v.length)

/-- `FaceRecognitionModule.load_known_faces` (lines 56-82).  The three
registry lists are replaced first (lines 63-70); only then is the matrix
built (lines 73-80).  When the embeddings are ragged, `np.array` raises
(`Bool` result `false`) and the matrix fields keep their previous values
while the lists have already been replaced. -/
def load_known_faces (m : FaceRecognitionModule)
    (face_data : List (Nat × String × List ℚ)) :
    FaceRecognitionModule × Bool :=
  let encodings := face_data.map (fun t => t.2.2)
  let names := face_data.map (fun t => t.2.1)
  let ids := face_data.map (fun t => t.1)
  let m1 := { m with
    known_face_encodings := encodings
    known_face_names := names
    known_face_ids := ids }
  if encodings.isEmpty then
    ({ m1 with known_embeddings_normalized := none }, true)
  else if allSameLength encodings then
    ({ m1 with
        known_embeddings_normalized := some (encodings.map normalizeVec) },
      true)
  else
    (m1, false)

/-- `FaceRecognitionModule._compute_similarities_batch` (lines 95-110):
normalize the query and dot it with every row of the cached normalized
matrix; the empty array when no matrix is cached. -/
def compute_similarities_batch (m : FaceRecognitionModule)
    (embedding : List ℚ) : List ℚ :=
  match m.known_embeddings_normalized with
  | none => []
  | some mat => mat.map (fun row => dotVec row (normalizeVec embedding))

/-- Helper for `argmaxIdx`: scan the remaining list, keeping the best value
`bv` and its absolute index `bi`, updating only on a strict increase (this
is how `np.argmax` keeps the first occurrence of the maximum). -/
def argmaxGo (bv : ℚ) (bi i : Nat) : List ℚ → Nat × ℚ
  | [] => (bi, bv)
  | x :: xs => if bv < x then argmaxGo x i (i + 1) xs else argmaxGo bv bi (i + 1) xs

/-- `np.argmax` (line 172): index of the first occurrence of the maximum.
Returns `0` on the empty list (where `np.argmax` raises; never reached from
a consistent registry state). -/
def argmaxIdx (l : List ℚ) : Nat :=
  match l with
  | [] => 0
  | x :: xs => (argmaxGo x 0 1 xs).1

/-- `FaceInfo` dataclass (face_recognition_module.py lines 17-25).
`location` is `(top, right, bottom, left)`. -/
structure FaceInfo where
  location : Int × Int × Int × Int
  encoding : Option (List ℚ)
  name : String
  user_id : Option Nat
  confidence : ℚ
  detection_score : ℚ
deriving DecidableEq, Inhabited

/-- One detected face as returned by the external InsightFace detector
(consumed as an opaque collaborator): raw bounding box `(x1, y1, x2, y2)`,
optional embedding, detection score. -/
structure Observation where
  bbox : Int × Int × Int × Int
  embedding : Option (List ℚ)
  det_score : ℚ
deriving DecidableEq, Inhabited

/-- Per-face body of `FaceRecognitionModule.recognize_faces` (lines
155-188): convert the bbox to `(top, right, bottom, left)`, and when an
embedding is present and the registry non-empty, take the argmax of the
batch similarities and accept it iff `best_similarity >= tolerance`. -/
def recognizeOne (m : FaceRecognitionModule) (o : Observation) : FaceInfo :=
  let x1 := o.bbox.1
  let y1 := o.bbox.2.1
  let x2 := o.bbox.2.2.1
  let y2 := o.bbox.2.2.2
  let location := (y1, x2, y2, x1)
  match o.embedding with
  | none =>
    { location := location, encoding := none, name := "Unknown"
      user_id := none, confidence := 0, detection_score := o.det_score }
  | some e =>
    if 0 < m.known_face_encodings.length then
      let sims := compute_similarities_batch m e
      let best := argmaxIdx sims
      let bestSim := sims.getD best 0
      if m.tolerance ≤ bestSim then
        { location := location, encoding := some e
          name := m.known_face_names.getD best ""
          user_id := some (m.known_face_ids.getD best 0)
          confidence := bestSim, detection_score := o.det_score }
      else
        { location := location, encoding := some e, name := "Unknown"
          user_id := none, confidence := 0, detection_score := o.det_score }
    else
      { location := location, encoding := some e, name := "Unknown"
        user_id := none, confidence := 0, detection_score := o.det_score }

/-- `FaceRecognitionModule.recognize_faces` (lines 140-190), with the
external detector's output supplied as `obss`. -/
def recognize_faces (m : FaceRecognitionModule) (obss : List Observation) :
    List FaceInfo :=
  obss.map (recognizeOne m)

/-- `FaceRecognitionModule.detect_faces` (lines 112-138): bounding boxes
and detection scores only, every other field left at its dataclass
default. -/
def detect_faces (obss : List Observation) : List FaceInfo :=
  obss.map (fun o =>
    { location := (o.bbox.2.1, o.bbox.2.2.1, o.bbox.2.2.2, o.bbox.1)
      encoding := none, name := "Unknown", user_id := none
      confidence := 0, detection_score := o.det_score })

/-- Consistency of a registry state: the list lengths agree and the cached
normalized matrix is exactly the row-normalization of the encodings (or
absent when the registry is empty).  Every state produced by a successful
`load_known_faces` satisfies this. -/
def ConsistentRegistry (m : FaceRecognitionModule) : Prop :=
  m.known_face_names.length = m.known_face_encodings.length ∧
  m.known_face_ids.length = m.known_face_encodings.length ∧
  (m.known_face_encodings = [] → m.known_embeddings_normalized = none) ∧
  (m.known_face_encodings ≠ [] →
    m.known_embeddings_normalized =
      some (m.known_face_encodings.map normalizeVec))

/-- One row of the SQLite `attendance` table (database.py lines 46-57):
rowid, user id, date, check-in time, optional check-out time.  Dates are
opaque `Nat`s, timestamps `ℚ`. -/
structure AttRow where
  id : Nat
  user_id : Nat
  date : Nat
  check_in_time : ℚ
  check_out_time : Option ℚ
deriving DecidableEq

/-- The five message strings `record_attendance` can return, one
constructor per string literal in database.py lines 152-176. -/
inductive AttMsg where
  /-- Literal at line 154: already checked in today. -/
  | alreadyCheckedIn : AttMsg
  /-- Literal at line 161: check-in completed at the given time. -/
  | checkInDone : ℚ → AttMsg
  /-- Literal at line 165: please check in first. -/
  | notCheckedIn : AttMsg
  /-- Literal at line 168: already checked out today. -/
  | alreadyCheckedOut : AttMsg
  /-- Literal at line 176: check-out completed at the given time. -/
  | checkOutDone : ℚ → AttMsg
deriving DecidableEq

/-- The `SELECT ... WHERE user_id = ? AND date = ?` of database.py lines
144-150: the first row for this user and date (the `UNIQUE(user_id, date)`
constraint keeps it unique in reachable states). -/
def findRec (db : List AttRow) (user_id : Nat) (today : Nat) : Option AttRow :=
  db.find? (fun r => r.user_id == user_id && r.date == today)

/-- Largest rowid in the table (`0` when empty). -/
def maxId (db : List AttRow) : Nat := (db.map (fun r => r.id)).foldr max 0

/-- `DatabaseManager.record_attendance` (database.py lines 128-176).  The
date and time arguments stand for `date.today()` and `datetime.now()`.
Every outcome is a returned `(new table, success flag, message)` triple;
no code path raises. -/
def record_attendance (db : List AttRow) (user_id : Nat) (check_type : String)
    (today : Nat) (now : ℚ) : List AttRow × Bool × AttMsg :=
  let existing := findRec db user_id today
  if check_type = "in" then
    match existing with
    | some _ => (db, false, AttMsg.alreadyCheckedIn)
    | none =>
      (db ++ [{ id := maxId db + 1, user_id := user_id, date := today
                check_in_time := now, check_out_time := none }],
        true, AttMsg.checkInDone now)
  else
    match existing with
    | none => (db, false, AttMsg.notCheckedIn)
    | some r =>
      match r.check_out_time with
      | some _ => (db, false, AttMsg.alreadyCheckedOut)
      | none =>
        (db.map (fun r2 =>
            if r2.id = r.id then { r2 with check_out_time := some now } else r2),
          true, AttMsg.checkOutDone now)

/-- Cooldown gate at the head of `_process_attendance`
(src/v1_basic_local/main.py lines 587-599 with `window = 5`,
src/v2_google_sheet_pc/main.py lines 300-311 with `window = 10`): if the
user has a recorded last-trigger time less than `window` seconds ago,
return without doing anything; otherwise record `now` and proceed.  The
`Bool` result is whether the attendance side effects run. -/
def process_attendance_guard (cooldown : List (Nat × ℚ)) (user_id : Nat)
    (now window : ℚ) : Bool × List (Nat × ℚ) :=
  match cooldown.lookup user_id with
  | some last =>
    if now - last < window then (false, cooldown)
    else (true, (user_id, now) :: cooldown)
  | none => (true, (user_id, now) :: cooldown)

/-- Python `int()` applied to a rational value: truncation toward zero. -/
def pyInt (q : ℚ) : Int := if q < 0 then -(Rat.floor (-q)) else Rat.floor q

/-- Modelled from the spec: rounding "to the nearest integer pixel"
(spec section 4.2), taken as floor of the value plus one half. -/
def specRound (q : ℚ) : Int := Rat.floor (q + 1 / 2)

/-- One rescaled coordinate, `int(coord * scale_factor)` from
src/v1_basic_local/main.py lines 525-528. -/
def scaleCoord (c : Int) (scale_factor : ℚ) : Int := pyInt ((c : ℚ) * scale_factor)

/-- Rescaling of a `(top, right, bottom, left)` location, each coordinate
independently (main.py lines 523-529). -/
def scaleLocation (loc : Int × Int × Int × Int) (scale_factor : ℚ) :
    Int × Int × Int × Int :=
  (scaleCoord loc.1 scale_factor, scaleCoord loc.2.1 scale_factor,
    scaleCoord loc.2.2.1 scale_factor, scaleCoord loc.2.2.2 scale_factor)

/-- Rebuilding a `FaceInfo` with the rescaled location and every other
field copied (main.py lines 530-538). -/
def scale_face (scale_factor : ℚ) (f : FaceInfo) : FaceInfo :=
  { f with location := scaleLocation f.location scale_factor }

/-- The two camera modes of v1 (`self.current_mode`). -/
inductive Mode where
  | attendance : Mode
  | register : Mode
deriving DecidableEq

/-- The frame-pump state of `FaceAttendanceApp` that `_update_camera`
reads and writes (main.py lines 47-51): the frame counter, the throttling
and downscale configuration, and the cached last recognition results. -/
structure SchedulerState where
  frame_count : Nat
  process_every_n_frames : Nat
  recognition_scale : ℚ
  last_faces : List FaceInfo
deriving DecidableEq

/-- Recognition part of `FaceAttendanceApp._update_camera` (main.py lines
503-565) for one frame that was read successfully, with the external
detector's output on the downscaled frame supplied as `obss`.  Returns the
new state, the face list used for drawing, and the faces passed to
`_process_attendance` (those with a present `user_id` and a name other
than `"Unknown"`, line 540; the source passes the unscaled `small_faces`
elements).  On frames where `frame_count mod N` is nonzero nothing is
recomputed: the cached `last_faces` field itself is returned. -/
def update_camera (s : SchedulerState) (m : FaceRecognitionModule)
    (mode : Mode) (obss : List Observation) :
    SchedulerState × List FaceInfo × List FaceInfo :=
  let c := s.frame_count + 1
  if c % s.process_every_n_frames = 0 then
    match mode with
    | Mode.attendance =>
      let small_faces := recognize_faces m obss
      let scaled := small_faces.map (scale_face (1 / s.recognition_scale))
      let triggered := small_faces.filter
        (fun f => f.user_id.isSome && f.name != "Unknown")
      ({ s with frame_count := c, last_faces := scaled }, scaled, triggered)
    | Mode.register =>
      let small_faces := detect_faces obss
      let scaled := small_faces.map (scale_face (1 / s.recognition_scale))
      ({ s with frame_count := c, last_faces := scaled }, scaled, [])
  else
    ({ s with frame_count := c }, s.last_faces, [])

/-! ### Ledger lemmas -/

lemma findRec_append_of_none {db : List AttRow} {u d : Nat} (l : List AttRow)
    (h : findRec db u d = none) : findRec (db ++ l) u d = findRec l u d := by
  unfold findRec at *
  rw [List.find?_append, h, Option.none_or]

lemma maxId_cons (x : AttRow) (xs : List AttRow) :
    maxId (x :: xs) = max x.id (maxId xs) := rfl

lemma mem_id_le_maxId {db : List AttRow} {r : AttRow} (h : r ∈ db) :
    r.id ≤ maxId db := by
  induction db with
  | nil => cases h
  | cons x xs ih =>
    rw [maxId_cons]
    rcases List.mem_cons.mp h with h1 | h2
    · subst h1; exact le_max_left _ _
    · exact le_trans (ih h2) (le_max_right _ _)

lemma map_update_fresh (db : List AttRow) (f : AttRow → AttRow) (j : Nat)
    (hj : maxId db < j) :
    db.map (fun r2 => if r2.id = j then f r2 else r2) = db := by
  induction db with
  | nil => rfl
  | cons x xs ih =>
    have hx : x.id ≠ j := by
      have := mem_id_le_maxId (List.mem_cons_self x xs)
      omega
    have hxs : maxId xs < j := by
      rw [maxId_cons] at hj
      omega
    simp only [List.map_cons, if_neg hx, ih hxs]

/-- C1: the attendance ledger is a per-(identity, day) state machine.  From
a state with no record for identity `A` on day `d`: a first check-in
succeeds and appends the record with `check_in_time = t1`; a second
check-in fails with the already-checked-in message; a check-out before any
check-in fails with the not-checked-in message; after check-in then
check-out, a further check-out fails with the already-checked-out message;
and in general every failing call returns its table unchanged.  All
outcomes are returned `(table, flag, message)` values — `record_attendance`
is a total function, no code path raises. -/
theorem record_attendance_state_machine
    (db : List AttRow) (A d : Nat) (t1 t2 t3 t4 t5 : ℚ)
    (h : findRec db A d = none) :
    record_attendance db A "in" d t1 =
      (db ++ [{ id := maxId db + 1, user_id := A, date := d,
                check_in_time := t1, check_out_time := none }],
        true, AttMsg.checkInDone t1) ∧
    findRec (db ++ [{ id := maxId db + 1, user_id := A, date := d,
                      check_in_time := t1, check_out_time := none }]) A d =
      some { id := maxId db + 1, user_id := A, date := d,
             check_in_time := t1, check_out_time := none } ∧
    record_attendance (db ++ [{ id := maxId db + 1, user_id := A, date := d,
                                check_in_time := t1, check_out_time := none }])
        A "in" d t2 =
      (db ++ [{ id := maxId db + 1, user_id := A, date := d,
                check_in_time := t1, check_out_time := none }],
        false, AttMsg.alreadyCheckedIn) ∧
    record_attendance db A "out" d t3 = (db, false, AttMsg.notCheckedIn) ∧
    record_attendance (db ++ [{ id := maxId db + 1, user_id := A, date := d,
                                check_in_time := t1, check_out_time := none }])
        A "out" d t4 =
      (db ++ [{ id := maxId db + 1, user_id := A, date := d,
                check_in_time := t1, check_out_time := some t4 }],
        true, AttMsg.checkOutDone t4) ∧
    record_attendance (db ++ [{ id := maxId db + 1, user_id := A, date := d,
                                check_in_time := t1, check_out_time := some t4 }])
        A "out" d t5 =
      (db ++ [{ id := maxId db + 1, user_id := A, date := d,
                check_in_time := t1, check_out_time := some t4 }],
        false, AttMsg.alreadyCheckedOut) ∧
    (∀ (db' : List AttRow) (u : Nat) (ct : String) (d' : Nat) (t' : ℚ),
      (record_attendance db' u ct d' t').2.1 = false →
      (record_attendance db' u ct d' t').1 = db') := by
  have hrow : findRec
      (db ++ [{ id := maxId db + 1, user_id := A, date := d,
                check_in_time := t1, check_out_time := none }]) A d =
      some { id := maxId db + 1, user_id := A, date := d,
             check_in_time := t1, check_out_time := none } := by
    rw [findRec_append_of_none _ h]
    simp [findRec]
  have hrow2 : findRec
      (db ++ [{ id := maxId db + 1, user_id := A, date := d,
                check_in_time := t1, check_out_time := some t4 }]) A d =
      some { id := maxId db + 1, user_id := A, date := d,
             check_in_time := t1, check_out_time := some t4 } := by
    rw [findRec_append_of_none _ h]
    simp [findRec]
  refine ⟨?_, hrow, ?_, ?_, ?_, ?_, ?_⟩
  · simp [record_attendance, h]
  · simp [record_attendance, hrow]
  · simp [record_attendance, h]
  · rw [record_attendance]
    simp only [hrow, String.reduceEq, if_false, List.map_append, List.map_cons,
      List.map_nil, if_pos rfl]
    rw [map_update_fresh db _ (maxId db + 1) (Nat.lt_succ_self _)]
    simp
  · simp [record_attendance, hrow2]
  · intro db' u ct d' t' hfail
    by_cases hct : ct = "in"
    · cases hfind : findRec db' u d' with
      | none => simp [record_attendance, hct, hfind] at hfail
      | some r => simp [record_attendance, hct, hfind]
    · cases hfind : findRec db' u d' with
      | none => simp [record_attendance, hct, hfind]
      | some r =>
        cases hco : r.check_out_time with
        | some tc => simp [record_attendance, hct, hfind, hco]
        | none => simp [record_attendance, hct, hfind, hco] at hfail

/-- Witness for `record_attendance_state_machine` on an empty table with
identity 1, day 0 and times 1 through 5. -/
theorem record_attendance_state_machine_witness :
    record_attendance [] 1 "in" 0 1 =
      ([{ id := 1, user_id := 1, date := 0,
          check_in_time := 1, check_out_time := none }],
        true, AttMsg.checkInDone 1) ∧
    findRec [{ id := 1, user_id := 1, date := 0,
               check_in_time := 1, check_out_time := none }] 1 0 =
      some { id := 1, user_id := 1, date := 0,
             check_in_time := 1, check_out_time := none } ∧
    record_attendance [{ id := 1, user_id := 1, date := 0,
                         check_in_time := 1, check_out_time := none }] 1 "in" 0 2 =
      ([{ id := 1, user_id := 1, date := 0,
          check_in_time := 1, check_out_time := none }],
        false, AttMsg.alreadyCheckedIn) ∧
    record_attendance [] 1 "out" 0 3 = ([], false, AttMsg.notCheckedIn) ∧
    record_attendance [{ id := 1, user_id := 1, date := 0,
                         check_in_time := 1, check_out_time := none }] 1 "out" 0 4 =
      ([{ id := 1, user_id := 1, date := 0,
          check_in_time := 1, check_out_time := some 4 }],
        true, AttMsg.checkOutDone 4) ∧
    record_attendance [{ id := 1, user_id := 1, date := 0,
                         check_in_time := 1, check_out_time := some 4 }] 1 "out" 0 5 =
      ([{ id := 1, user_id := 1, date := 0,
          check_in_time := 1, check_out_time := some 4 }],
        false, AttMsg.alreadyCheckedOut) ∧
    (∀ (db' : List AttRow) (u : Nat) (ct : String) (d' : Nat) (t' : ℚ),
      (record_attendance db' u ct d' t').2.1 = false →
      (record_attendance db' u ct d' t').1 = db') := by
  have := record_attendance_state_machine [] 1 0 1 2 3 4 5 rfl
  simpa using this

/-- C9: `record_attendance` branches only on whether `check_type` is the
exact string `"in"` (database.py line 152); every other value behaves
exactly like `"out"` and follows the check-out rules: not-checked-in when
no record exists, already-checked-out when a check-out time is already
set. -/
theorem record_attendance_check_type_branch
    (db : List AttRow) (u : Nat) (ct : String) (d : Nat) (t : ℚ)
    (h : ct ≠ "in") :
    record_attendance db u ct d t = record_attendance db u "out" d t ∧
    (findRec db u d = none →
      record_attendance db u ct d t = (db, false, AttMsg.notCheckedIn)) ∧
    (∀ (r : AttRow) (tc : ℚ), findRec db u d = some r →
      r.check_out_time = some tc →
      record_attendance db u ct d t = (db, false, AttMsg.alreadyCheckedOut)) := by
  refine ⟨?_, ?_, ?_⟩
  · simp [record_attendance, h]
  · intro hfind
    simp [record_attendance, h, hfind]
  · intro r tc hfind hco
    simp [record_attendance, h, hfind, hco]

/-- Witness for `record_attendance_check_type_branch` at the arbitrary
string `"x"`. -/
theorem record_attendance_check_type_branch_witness :
    record_attendance [] 1 "x" 0 1 = record_attendance [] 1 "out" 0 1 ∧
    (findRec [] 1 0 = none →
      record_attendance [] 1 "x" 0 1 = ([], false, AttMsg.notCheckedIn)) ∧
    (∀ (r : AttRow) (tc : ℚ), findRec [] 1 0 = some r →
      r.check_out_time = some tc →
      record_attendance [] 1 "x" 0 1 = ([], false, AttMsg.alreadyCheckedOut)) :=
  record_attendance_check_type_branch [] 1 "x" 0 1 (by decide)

/-! ### Argmax lemmas -/

lemma argmaxGo_spec (xs : List ℚ) : ∀ (bv : ℚ) (bi i : Nat),
    (argmaxGo bv bi i xs = (bi, bv) ∧ ∀ y ∈ xs, y ≤ bv) ∨
    (∃ k, k < xs.length ∧ argmaxGo bv bi i xs = (i + k, xs.getD k 0) ∧
      bv < xs.getD k 0 ∧ (∀ y ∈ xs, y ≤ xs.getD k 0) ∧
      (∀ j, j < k → xs.getD j 0 < xs.getD k 0)) := by
  induction xs with
  | nil =>
    intro bv bi i
    exact Or.inl ⟨rfl, by simp⟩
  | cons x xs ih =>
    intro bv bi i
    by_cases hx : bv < x
    · have hstep : argmaxGo bv bi i (x :: xs) = argmaxGo x i (i + 1) xs := by
        simp [argmaxGo, hx]
      rcases ih x i (i + 1) with ⟨heq, hall⟩ | ⟨k, hk, heq, hlt, hall, hpre⟩
      · right
        refine ⟨0, by simp, ?_, by simpa using hx, ?_, ?_⟩
        · rw [hstep, heq]
          simp
        · intro y hy
          rcases List.mem_cons.mp hy with rfl | hy2
          · simp
          · simpa using hall y hy2
        · intro j hj
          omega
      · right
        refine ⟨k + 1, by simpa using hk, ?_, ?_, ?_, ?_⟩
        · rw [hstep, heq, List.getD_cons_succ]
          have : i + 1 + k = i + (k + 1) := by omega
          rw [this]
        · rw [List.getD_cons_succ]
          exact lt_trans hx hlt
        · intro y hy
          rw [List.getD_cons_succ]
          rcases List.mem_cons.mp hy with rfl | hy2
          · exact le_of_lt hlt
          · exact hall y hy2
        · intro j hj
          rw [List.getD_cons_succ]
          cases j with
          | zero =>
            rw [List.getD_cons_zero]
            exact hlt
          | succ j2 =>
            rw [List.getD_cons_succ]
            exact hpre j2 (by omega)
    · have hstep : argmaxGo bv bi i (x :: xs) = argmaxGo bv bi (i + 1) xs := by
        simp [argmaxGo, hx]
      have hxle : x ≤ bv := le_of_not_lt hx
      rcases ih bv bi (i + 1) with ⟨heq, hall⟩ | ⟨k, hk, heq, hlt, hall, hpre⟩
      · left
        refine ⟨by rw [hstep, heq], ?_⟩
        intro y hy
        rcases List.mem_cons.mp hy with rfl | hy2
        · exact hxle
        · exact hall y hy2
      · right
        refine ⟨k + 1, by simpa using hk, ?_, ?_, ?_, ?_⟩
        · rw [hstep, heq, List.getD_cons_succ]
          have : i + 1 + k = i + (k + 1) := by omega
          rw [this]
        · rw [List.getD_cons_succ]
          exact hlt
        · intro y hy
          rw [List.getD_cons_succ]
          rcases List.mem_cons.mp hy with rfl | hy2
          · exact le_of_lt (lt_of_le_of_lt hxle hlt)
          · exact hall y hy2
        · intro j hj
          rw [List.getD_cons_succ]
          cases j with
          | zero =>
            rw [List.getD_cons_zero]
            exact lt_of_le_of_lt hxle hlt
          | succ j2 =>
            rw [List.getD_cons_succ]
            exact hpre j2 (by omega)

lemma getD_mem_of_lt {l : List ℚ} {j : Nat} (hj : j < l.length) :
    l.getD j 0 ∈ l := by
  rw [List.getD_eq_getElem _ _ hj]
  exact List.getElem_mem hj

lemma argmaxIdx_spec (l : List ℚ) (hne : l ≠ []) :
    argmaxIdx l < l.length ∧
    (∀ j, j < l.length → l.getD j 0 ≤ l.getD (argmaxIdx l) 0) ∧
    (∀ j, j < argmaxIdx l → l.getD j 0 < l.getD (argmaxIdx l) 0) := by
  cases l with
  | nil => exact absurd rfl hne
  | cons x xs =>
    have hidx : argmaxIdx (x :: xs) = (argmaxGo x 0 1 xs).1 := rfl
    rcases argmaxGo_spec xs x 0 1 with ⟨heq, hall⟩ | ⟨k, hk, heq, hlt, hall, hpre⟩
    · have h0 : argmaxIdx (x :: xs) = 0 := by rw [hidx, heq]
      rw [h0]
      refine ⟨by simp, ?_, ?_⟩
      · intro j hj
        rw [List.getD_cons_zero]
        cases j with
        | zero => simp
        | succ j2 =>
          rw [List.getD_cons_succ]
          exact hall _ (getD_mem_of_lt (by simpa using hj))
      · intro j hj
        omega
    · have h1 : argmaxIdx (x :: xs) = k + 1 := by
        rw [hidx, heq]
        omega
      rw [h1, List.getD_cons_succ]
      refine ⟨by simpa using hk, ?_, ?_⟩
      · intro j hj
        cases j with
        | zero =>
          rw [List.getD_cons_zero]
          exact le_of_lt hlt
        | succ j2 =>
          rw [List.getD_cons_succ]
          exact hall _ (getD_mem_of_lt (by simpa using hj))
      · intro j hj
        cases j with
        | zero =>
          rw [List.getD_cons_zero]
          exact hlt
        | succ j2 =>
          rw [List.getD_cons_succ]
          exact hpre j2 (by omega)

/-! ### Registry lemmas -/

lemma load_success_spec (m m' : FaceRecognitionModule)
    (fd : List (Nat × String × List ℚ))
    (h : load_known_faces m fd = (m', true)) :
    ConsistentRegistry m' ∧
    m'.known_face_encodings = fd.map (fun t => t.2.2) ∧
    m'.known_face_names = fd.map (fun t => t.2.1) ∧
    m'.known_face_ids = fd.map (fun t => t.1) ∧
    m'.tolerance = m.tolerance := by
  unfold load_known_faces at h
  by_cases he : (fd.map (fun t => t.2.2)).isEmpty
  · simp only [he, if_true] at h
    injection h with h1 _
    subst h1
    have he2 : fd.map (fun t => t.2.2) = [] := List.isEmpty_iff.mp he
    refine ⟨⟨by simp, by simp, fun _ => rfl, fun hno => absurd he2 hno⟩,
      rfl, rfl, rfl, rfl⟩
  · simp only [he, if_false] at h
    by_cases hs : allSameLength (fd.map (fun t => t.2.2))
    · simp only [hs, if_true] at h
      injection h with h1 _
      subst h1
      have he2 : fd.map (fun t => t.2.2) ≠ [] := by
        intro hc
        rw [hc] at he
        exact he rfl
      exact ⟨⟨by simp, by simp, fun hc => absurd hc he2, fun _ => rfl⟩,
        rfl, rfl, rfl, rfl⟩
    · simp only [hs, if_false] at h
      injection h with _ h2
      exact absurd h2 Bool.false_ne_true

lemma batch_eq_map_similarity (m : FaceRecognitionModule)
    (hm : ConsistentRegistry m) (hne : m.known_face_encodings ≠ [])
    (q : List ℚ) :
    compute_similarities_batch m q =
      m.known_face_encodings.map (fun e => compute_similarity e q) := by
  unfold compute_similarities_batch
  rw [hm.2.2.2 hne]
  simp [List.map_map, Function.comp, compute_similarity]

lemma getD_map_similarity (encs : List (List ℚ)) (q : List ℚ) (j : Nat)
    (hj : j < encs.length) :
    (encs.map (fun e => compute_similarity e q)).getD j 0 =
      compute_similarity (encs.getD j []) q := by
  rw [List.getD_eq_getElem _ _ (by simpa using hj), List.getElem_map,
    List.getD_eq_getElem _ _ hj]

/-- C2: on a consistent non-empty registry, the similarity array computed
by `recognize_faces` is exactly the cosine similarity of the query against
each enrolled embedding, and `np.argmax` selects an in-range index whose
similarity is maximal; every index strictly before it has strictly smaller
similarity, so ties resolve to the lowest registry index. -/
theorem recognize_query_argmax (m : FaceRecognitionModule)
    (hm : ConsistentRegistry m) (hne : m.known_face_encodings ≠ [])
    (q : List ℚ) :
    argmaxIdx (compute_similarities_batch m q) <
      m.known_face_encodings.length ∧
    (compute_similarities_batch m q).getD
        (argmaxIdx (compute_similarities_batch m q)) 0 =
      compute_similarity
        (m.known_face_encodings.getD
          (argmaxIdx (compute_similarities_batch m q)) []) q ∧
    (∀ j, j < m.known_face_encodings.length →
      compute_similarity (m.known_face_encodings.getD j []) q ≤
        (compute_similarities_batch m q).getD
          (argmaxIdx (compute_similarities_batch m q)) 0) ∧
    (∀ j, j < argmaxIdx (compute_similarities_batch m q) →
      compute_similarity (m.known_face_encodings.getD j []) q <
        (compute_similarities_batch m q).getD
          (argmaxIdx (compute_similarities_batch m q)) 0) := by
  have hb := batch_eq_map_similarity m hm hne q
  have hlen : (compute_similarities_batch m q).length =
      m.known_face_encodings.length := by
    rw [hb, List.length_map]
  have hbne : compute_similarities_batch m q ≠ [] := by
    rw [hb]
    simpa using hne
  obtain ⟨h1, h2, h3⟩ := argmaxIdx_spec _ hbne
  have hidx : argmaxIdx (compute_similarities_batch m q) <
      m.known_face_encodings.length := by
    rw [← hlen]
    exact h1
  have hval : ∀ j, j < m.known_face_encodings.length →
      (compute_similarities_batch m q).getD j 0 =
        compute_similarity (m.known_face_encodings.getD j []) q := by
    intro j hj
    rw [hb, getD_map_similarity _ _ _ hj]
  refine ⟨hidx, (hval _ hidx).symm ▸ rfl, ?_, ?_⟩
  · intro j hj
    rw [← hval j hj]
    exact h2 j (by rw [hlen]; exact hj)
  · intro j hj
    rw [← hval j (lt_trans hj hidx)]
    exact h3 j hj

/-- Witness for `recognize_query_argmax` on a registry of two enrolled
unit embeddings and the query `[3, 4]`. -/
theorem recognize_query_argmax_witness :
    argmaxIdx (compute_similarities_batch
        (load_known_faces (initModule (1 / 2))
          [(1, "A", [(1:ℚ), 0]), (2, "B", [(0:ℚ), 1])]).1 [3, 4]) <
      (load_known_faces (initModule (1 / 2))
        [(1, "A", [(1:ℚ), 0]), (2, "B", [(0:ℚ), 1])]).1.known_face_encodings.length ∧
    (compute_similarities_batch
        (load_known_faces (initModule (1 / 2))
          [(1, "A", [(1:ℚ), 0]), (2, "B", [(0:ℚ), 1])]).1 [3, 4]).getD
        (argmaxIdx (compute_similarities_batch
          (load_known_faces (initModule (1 / 2))
            [(1, "A", [(1:ℚ), 0]), (2, "B", [(0:ℚ), 1])]).1 [3, 4])) 0 =
      compute_similarity
        ((load_known_faces (initModule (1 / 2))
            [(1, "A", [(1:ℚ), 0]), (2, "B", [(0:ℚ), 1])]).1.known_face_encodings.getD
          (argmaxIdx (compute_similarities_batch
            (load_known_faces (initModule (1 / 2))
              [(1, "A", [(1:ℚ), 0]), (2, "B", [(0:ℚ), 1])]).1 [3, 4])) []) [3, 4] ∧
    (∀ j, j < (load_known_faces (initModule (1 / 2))
        [(1, "A", [(1:ℚ), 0]), (2, "B", [(0:ℚ), 1])]).1.known_face_encodings.length →
      compute_similarity
          ((load_known_faces (initModule (1 / 2))
              [(1, "A", [(1:ℚ), 0]), (2, "B", [(0:ℚ), 1])]).1.known_face_encodings.getD
            j []) [3, 4] ≤
        (compute_similarities_batch
            (load_known_faces (initModule (1 / 2))
              [(1, "A", [(1:ℚ), 0]), (2, "B", [(0:ℚ), 1])]).1 [3, 4]).getD
          (argmaxIdx (compute_similarities_batch
            (load_known_faces (initModule (1 / 2))
              [(1, "A", [(1:ℚ), 0]), (2, "B", [(0:ℚ), 1])]).1 [3, 4])) 0) ∧
    (∀ j, j < argmaxIdx (compute_similarities_batch
        (load_known_faces (initModule (1 / 2))
          [(1, "A", [(1:ℚ), 0]), (2, "B", [(0:ℚ), 1])]).1 [3, 4]) →
      compute_similarity
          ((load_known_faces (initModule (1 / 2))
              [(1, "A", [(1:ℚ), 0]), (2, "B", [(0:ℚ), 1])]).1.known_face_encodings.getD
            j []) [3, 4] <
        (compute_similarities_batch
            (load_known_faces (initModule (1 / 2))
              [(1, "A", [(1:ℚ), 0]), (2, "B", [(0:ℚ), 1])]).1 [3, 4]).getD
          (argmaxIdx (compute_similarities_batch
            (load_known_faces (initModule (1 / 2))
              [(1, "A", [(1:ℚ), 0]), (2, "B", [(0:ℚ), 1])]).1 [3, 4])) 0) :=
  recognize_query_argmax _
    ⟨rfl, rfl, fun hc => absurd hc (by simp [load_known_faces, allSameLength]),
      fun _ => rfl⟩
    (by simp [load_known_faces, allSameLength]) [3, 4]

/-- C3 counterexample: a failed load is not all-or-nothing.  Starting from
a registry holding identity `"A"`, loading two embeddings of mismatched
lengths raises (flag `false`), yet afterwards the very same query that
previously matched `"A"` now reports `"C"` — the name lists were replaced
while the cached normalized matrix kept its previous value, so the
registry did not keep its previous state. -/
theorem load_not_all_or_nothing_cex :
    (load_known_faces
        (load_known_faces (initModule (1 / 2)) [(1, "A", [(1:ℚ), 0])]).1
        [(10, "C", [(1:ℚ), 0]), (11, "D", [(0:ℚ), 1, 2])]).2 = false ∧
    (recognizeOne
        (load_known_faces
            (load_known_faces (initModule (1 / 2)) [(1, "A", [(1:ℚ), 0])]).1
            [(10, "C", [(1:ℚ), 0]), (11, "D", [(0:ℚ), 1, 2])]).1
        ⟨(0, 0, 0, 0), some [(1:ℚ), 0], 0⟩).name = "C" ∧
    (recognizeOne (load_known_faces (initModule (1 / 2)) [(1, "A", [(1:ℚ), 0])]).1
        ⟨(0, 0, 0, 0), some [(1:ℚ), 0], 0⟩).name = "A" := by
  refine ⟨rfl, ?_, ?_⟩ <;>
    norm_num [recognizeOne, load_known_faces, initModule, allSameLength,
      compute_similarities_batch, normalizeVec, l2norm, ratSqrt, sumSq,
      dotVec, argmaxIdx, argmaxGo, Nat.sqrt, List.getD]

/-- C3 (amended): a load whose embeddings do not all share the first
embedding's length fails (the `np.array` matrix build raises), but it is
not all-or-nothing: the encoding, name and id lists are replaced by the
new data while the cached normalized matrix keeps its previous value, so
the registry is left in a mixed state rather than its previous state. -/
theorem load_dimension_mismatch_mixed_state (m : FaceRecognitionModule)
    (fd : List (Nat × String × List ℚ))
    (h : allSameLength (fd.map (fun t => t.2.2)) = false) :
    (load_known_faces m fd).2 = false ∧
    (load_known_faces m fd).1.known_embeddings_normalized =
      m.known_embeddings_normalized ∧
    (load_known_faces m fd).1.known_face_encodings =
      fd.map (fun t => t.2.2) ∧
    (load_known_faces m fd).1.known_face_names = fd.map (fun t => t.2.1) ∧
    (load_known_faces m fd).1.known_face_ids = fd.map (fun t => t.1) := by
  have hne : (fd.map (fun t => t.2.2)).isEmpty = false := by
    rcases hl : fd.map (fun t => t.2.2) with _ | ⟨a, l⟩
    · rw [hl] at h
      simp [allSameLength] at h
    · rw [hl]
      rfl
  simp [load_known_faces, hne, h]

/-- Witness for `load_dimension_mismatch_mixed_state` on a fresh module
and a two-element load with embedding lengths 2 and 3. -/
theorem load_dimension_mismatch_mixed_state_witness :
    (load_known_faces (initModule (1 / 2))
        [(10, "C", [(1:ℚ), 0]), (11, "D", [(0:ℚ), 1, 2])]).2 = false ∧
    (load_known_faces (initModule (1 / 2))
        [(10, "C", [(1:ℚ), 0]), (11, "D", [(0:ℚ), 1, 2])]).1.known_embeddings_normalized =
      (initModule (1 / 2)).known_embeddings_normalized ∧
    (load_known_faces (initModule (1 / 2))
        [(10, "C", [(1:ℚ), 0]), (11, "D", [(0:ℚ), 1, 2])]).1.known_face_encodings =
      [(10, "C", [(1:ℚ), 0]), (11, "D", [(0:ℚ), 1, 2])].map (fun t => t.2.2) ∧
    (load_known_faces (initModule (1 / 2))
        [(10, "C", [(1:ℚ), 0]), (11, "D", [(0:ℚ), 1, 2])]).1.known_face_names =
      [(10, "C", [(1:ℚ), 0]), (11, "D", [(0:ℚ), 1, 2])].map (fun t => t.2.1) ∧
    (load_known_faces (initModule (1 / 2))
        [(10, "C", [(1:ℚ), 0]), (11, "D", [(0:ℚ), 1, 2])]).1.known_face_ids =
      [(10, "C", [(1:ℚ), 0]), (11, "D", [(0:ℚ), 1, 2])].map (fun t => t.1) :=
  load_dimension_mismatch_mixed_state (initModule (1 / 2))
    [(10, "C", [(1:ℚ), 0]), (11, "D", [(0:ℚ), 1, 2])] (by decide)

/-- C4: `recognize_faces` accepts the best candidate exactly when
`best_similarity >= tolerance` — the boundary is inclusive — and a higher
tolerance value is stricter: any face accepted under tolerance `t2` is
also accepted under any `t1 ≤ t2`. -/
theorem tolerance_boundary_inclusive (m : FaceRecognitionModule)
    (hne : m.known_face_encodings ≠ []) (o : Observation) (e : List ℚ)
    (he : o.embedding = some e) :
    ((recognizeOne m o).user_id.isSome = true ↔
      m.tolerance ≤ (compute_similarities_batch m e).getD
        (argmaxIdx (compute_similarities_batch m e)) 0) ∧
    (∀ t1 t2 : ℚ, t1 ≤ t2 →
      (recognizeOne { m with tolerance := t2 } o).user_id.isSome = true →
      (recognizeOne { m with tolerance := t1 } o).user_id.isSome = true) := by
  have hlen : 0 < m.known_face_encodings.length := List.length_pos.mpr hne
  have key : ∀ t : ℚ,
      (recognizeOne { m with tolerance := t } o).user_id.isSome = true ↔
      t ≤ (compute_similarities_batch m e).getD
        (argmaxIdx (compute_similarities_batch m e)) 0 := by
    intro t
    simp only [recognizeOne, he]
    rw [if_pos hlen]
    by_cases ht : t ≤ (compute_similarities_batch m e).getD
        (argmaxIdx (compute_similarities_batch m e)) 0
    · simp only [compute_similarities_batch] at ht ⊢
      rw [if_pos ht]
      simpa using ht
    · simp only [compute_similarities_batch] at ht ⊢
      rw [if_neg ht]
      simpa using ht
  constructor
  · have := key m.tolerance
    simpa using this
  · intro t1 t2 hle hacc
    exact (key t1).mpr (le_trans hle ((key t2).mp hacc))

/-- Witness for `tolerance_boundary_inclusive` on a one-identity registry
and the query `[3, 4]`. -/
theorem tolerance_boundary_inclusive_witness :
    ((recognizeOne (load_known_faces (initModule (1 / 2)) [(1, "A", [(1:ℚ), 0])]).1
        ⟨(0, 0, 0, 0), some [(3:ℚ), 4], 0⟩).user_id.isSome = true ↔
      (load_known_faces (initModule (1 / 2)) [(1, "A", [(1:ℚ), 0])]).1.tolerance ≤
        (compute_similarities_batch
            (load_known_faces (initModule (1 / 2)) [(1, "A", [(1:ℚ), 0])]).1
            [3, 4]).getD
          (argmaxIdx (compute_similarities_batch
            (load_known_faces (initModule (1 / 2)) [(1, "A", [(1:ℚ), 0])]).1
            [3, 4])) 0) ∧
    (∀ t1 t2 : ℚ, t1 ≤ t2 →
      (recognizeOne
          { (load_known_faces (initModule (1 / 2)) [(1, "A", [(1:ℚ), 0])]).1 with
            tolerance := t2 }
          ⟨(0, 0, 0, 0), some [(3:ℚ), 4], 0⟩).user_id.isSome = true →
      (recognizeOne
          { (load_known_faces (initModule (1 / 2)) [(1, "A", [(1:ℚ), 0])]).1 with
            tolerance := t1 }
          ⟨(0, 0, 0, 0), some [(3:ℚ), 4], 0⟩).user_id.isSome = true) :=
  tolerance_boundary_inclusive _ (by simp [load_known_faces, allSameLength]) _ [3, 4] rfl

/-- C7: the empty registry is a legitimate state, not an error: loading
the empty list returns normally, the similarity array of every query is
empty, and `recognize_faces` reports every detected face as `"Unknown"`
with no `user_id` and confidence `0`. -/
theorem empty_registry_unknown (m : FaceRecognitionModule)
    (obss : List Observation) (e : List ℚ) :
    (load_known_faces m []).2 = true ∧
    compute_similarities_batch (load_known_faces m []).1 e = [] ∧
    recognize_faces (load_known_faces m []).1 obss =
      obss.map (fun o =>
        { location := (o.bbox.2.1, o.bbox.2.2.1, o.bbox.2.2.2, o.bbox.1)
          encoding := o.embedding, name := "Unknown", user_id := none
          confidence := 0, detection_score := o.det_score }) := by
  refine ⟨rfl, rfl, ?_⟩
  unfold recognize_faces
  apply List.map_congr_left
  intro o _
  cases he : o.embedding with
  | none => simp [recognizeOne, he]
  | some e2 => simp [recognizeOne, he, load_known_faces]

/-- C10 counterexample: an identity may itself be enrolled under the name
`"Unknown"`; a face matching it gets name `"Unknown"` with a present
`user_id`, so "user_id is present iff name differs from Unknown" fails on
the code. -/
theorem unknown_named_identity_cex :
    (recognizeOne
        (load_known_faces (initModule (1 / 2)) [(7, "Unknown", [(1:ℚ), 0])]).1
        ⟨(0, 0, 0, 0), some [(1:ℚ), 0], 0⟩).name = "Unknown" ∧
    (recognizeOne
        (load_known_faces (initModule (1 / 2)) [(7, "Unknown", [(1:ℚ), 0])]).1
        ⟨(0, 0, 0, 0), some [(1:ℚ), 0], 0⟩).user_id = some 7 := by
  constructor <;>
    norm_num [recognizeOne, load_known_faces, initModule, allSameLength,
      compute_similarities_batch, normalizeVec, l2norm, ratSqrt, sumSq,
      dotVec, argmaxIdx, argmaxGo, Nat.sqrt, List.getD]

lemma recognize_faces_getD (m : FaceRecognitionModule)
    (obss : List Observation) (k : Nat) (hk : k < obss.length) :
    (recognize_faces m obss).getD k default =
      recognizeOne m (obss.getD k default) := by
  unfold recognize_faces
  rw [List.getD_eq_getElem _ _ (by simpa using hk), List.getElem_map,
    List.getD_eq_getElem _ _ hk]

/-- C10 (amended): `recognize_faces` yields exactly one entry per detected
face; when the registry is non-empty, the face carries an embedding and the
best similarity reaches the tolerance, the entry carries the name and id
of the best-matching registered identity (at an in-range argmax index) and
its confidence is the best similarity; in every other case the entry is
`"Unknown"` with no `user_id` and confidence `0`.  (The claim's corollary
"user_id present iff name differs from Unknown" holds only when no
enrolled identity is itself named `"Unknown"` — see the counterexample.) -/
theorem recognize_faces_entry_invariant (m : FaceRecognitionModule)
    (hm : ConsistentRegistry m) (obss : List Observation) :
    (recognize_faces m obss).length = obss.length ∧
    (∀ k, k < obss.length →
      (recognize_faces m obss).getD k default =
        recognizeOne m (obss.getD k default) ∧
      ((obss.getD k default).embedding = none →
        ((recognize_faces m obss).getD k default).name = "Unknown" ∧
        ((recognize_faces m obss).getD k default).user_id = none ∧
        ((recognize_faces m obss).getD k default).confidence = 0) ∧
      (m.known_face_encodings = [] →
        ((recognize_faces m obss).getD k default).name = "Unknown" ∧
        ((recognize_faces m obss).getD k default).user_id = none ∧
        ((recognize_faces m obss).getD k default).confidence = 0) ∧
      (∀ e, (obss.getD k default).embedding = some e →
        m.known_face_encodings ≠ [] →
        (argmaxIdx (compute_similarities_batch m e) <
            m.known_face_names.length ∧
          argmaxIdx (compute_similarities_batch m e) <
            m.known_face_ids.length) ∧
        (m.tolerance ≤ (compute_similarities_batch m e).getD
            (argmaxIdx (compute_similarities_batch m e)) 0 →
          ((recognize_faces m obss).getD k default).name =
            m.known_face_names.getD
              (argmaxIdx (compute_similarities_batch m e)) "" ∧
          ((recognize_faces m obss).getD k default).user_id =
            some (m.known_face_ids.getD
              (argmaxIdx (compute_similarities_batch m e)) 0) ∧
          ((recognize_faces m obss).getD k default).confidence =
            (compute_similarities_batch m e).getD
              (argmaxIdx (compute_similarities_batch m e)) 0) ∧
        ((compute_similarities_batch m e).getD
            (argmaxIdx (compute_similarities_batch m e)) 0 < m.tolerance →
          ((recognize_faces m obss).getD k default).name = "Unknown" ∧
          ((recognize_faces m obss).getD k default).user_id = none ∧
          ((recognize_faces m obss).getD k default).confidence = 0))) := by
  refine ⟨by simp [recognize_faces], ?_⟩
  intro k hk
  have hget := recognize_faces_getD m obss k hk
  obtain ⟨o, ho⟩ : ∃ o, obss.getD k default = o := ⟨_, rfl⟩
  rw [ho] at hget
  rw [hget, ho]
  refine ⟨rfl, ?_, ?_, ?_⟩
  · intro he
    simp [recognizeOne, he]
  · intro henc
    cases he : o.embedding with
    | none => simp [recognizeOne, he]
    | some e => simp [recognizeOne, he, henc]
  · intro e he hne
    have hlen : 0 < m.known_face_encodings.length := List.length_pos.mpr hne
    have hb := batch_eq_map_similarity m hm hne e
    have hbne : compute_similarities_batch m e ≠ [] := by
      rw [hb]
      simpa using hne
    have hlen2 : (compute_similarities_batch m e).length =
        m.known_face_encodings.length := by
      rw [hb, List.length_map]
    have hidx : argmaxIdx (compute_similarities_batch m e) <
        m.known_face_encodings.length := hlen2 ▸ (argmaxIdx_spec _ hbne).1
    refine ⟨⟨by rw [hm.1]; exact hidx, by rw [hm.2.1]; exact hidx⟩, ?_, ?_⟩
    · intro ht
      simp only [recognizeOne, he]
      rw [if_pos hlen]
      simp only [compute_similarities_batch] at ht ⊢
      rw [if_pos ht]
      exact ⟨rfl, rfl, rfl⟩
    · intro ht
      simp only [recognizeOne, he]
      rw [if_pos hlen]
      simp only [compute_similarities_batch] at ht ⊢
      rw [if_neg (not_le.mpr ht)]
      exact ⟨rfl, rfl, rfl⟩

/-- Witness for `recognize_faces_entry_invariant` on a one-identity
registry and one observed face. -/
theorem recognize_faces_entry_invariant_witness :
    (recognize_faces (load_known_faces (initModule (1 / 2)) [(1, "A", [(1:ℚ), 0])]).1
        [⟨(0, 0, 0, 0), some [(3:ℚ), 4], 0⟩]).length =
      [(⟨(0, 0, 0, 0), some [(3:ℚ), 4], 0⟩ : Observation)].length ∧
    (∀ k, k < [(⟨(0, 0, 0, 0), some [(3:ℚ), 4], 0⟩ : Observation)].length →
      (recognize_faces (load_known_faces (initModule (1 / 2)) [(1, "A", [(1:ℚ), 0])]).1
          [⟨(0, 0, 0, 0), some [(3:ℚ), 4], 0⟩]).getD k default =
        recognizeOne (load_known_faces (initModule (1 / 2)) [(1, "A", [(1:ℚ), 0])]).1
          ([(⟨(0, 0, 0, 0), some [(3:ℚ), 4], 0⟩ : Observation)].getD k default) ∧
      (([(⟨(0, 0, 0, 0), some [(3:ℚ), 4], 0⟩ : Observation)].getD k default).embedding = none →
        ((recognize_faces (load_known_faces (initModule (1 / 2)) [(1, "A", [(1:ℚ), 0])]).1
            [⟨(0, 0, 0, 0), some [(3:ℚ), 4], 0⟩]).getD k default).name = "Unknown" ∧
        ((recognize_faces (load_known_faces (initModule (1 / 2)) [(1, "A", [(1:ℚ), 0])]).1
            [⟨(0, 0, 0, 0), some [(3:ℚ), 4], 0⟩]).getD k default).user_id = none ∧
        ((recognize_faces (load_known_faces (initModule (1 / 2)) [(1, "A", [(1:ℚ), 0])]).1
            [⟨(0, 0, 0, 0), some [(3:ℚ), 4], 0⟩]).getD k default).confidence = 0) ∧
      ((load_known_faces (initModule (1 / 2)) [(1, "A", [(1:ℚ), 0])]).1.known_face_encodings = [] →
        ((recognize_faces (load_known_faces (initModule (1 / 2)) [(1, "A", [(1:ℚ), 0])]).1
            [⟨(0, 0, 0, 0), some [(3:ℚ), 4], 0⟩]).getD k default).name = "Unknown" ∧
        ((recognize_faces (load_known_faces (initModule (1 / 2)) [(1, "A", [(1:ℚ), 0])]).1
            [⟨(0, 0, 0, 0), some [(3:ℚ), 4], 0⟩]).getD k default).user_id = none ∧
        ((recognize_faces (load_known_faces (initModule (1 / 2)) [(1, "A", [(1:ℚ), 0])]).1
            [⟨(0, 0, 0, 0), some [(3:ℚ), 4], 0⟩]).getD k default).confidence = 0) ∧
      (∀ e, ([(⟨(0, 0, 0, 0), some [(3:ℚ), 4], 0⟩ : Observation)].getD k default).embedding = some e →
        (load_known_faces (initModule (1 / 2)) [(1, "A", [(1:ℚ), 0])]).1.known_face_encodings ≠ [] →
        (argmaxIdx (compute_similarities_batch
              (load_known_faces (initModule (1 / 2)) [(1, "A", [(1:ℚ), 0])]).1 e) <
            (load_known_faces (initModule (1 / 2)) [(1, "A", [(1:ℚ), 0])]).1.known_face_names.length ∧
          argmaxIdx (compute_similarities_batch
              (load_known_faces (initModule (1 / 2)) [(1, "A", [(1:ℚ), 0])]).1 e) <
            (load_known_faces (initModule (1 / 2)) [(1, "A", [(1:ℚ), 0])]).1.known_face_ids.length) ∧
        ((load_known_faces (initModule (1 / 2)) [(1, "A", [(1:ℚ), 0])]).1.tolerance ≤
            (compute_similarities_batch
                (load_known_faces (initModule (1 / 2)) [(1, "A", [(1:ℚ), 0])]).1 e).getD
              (argmaxIdx (compute_similarities_batch
                (load_known_faces (initModule (1 / 2)) [(1, "A", [(1:ℚ), 0])]).1 e)) 0 →
          ((recognize_faces (load_known_faces (initModule (1 / 2)) [(1, "A", [(1:ℚ), 0])]).1
              [⟨(0, 0, 0, 0), some [(3:ℚ), 4], 0⟩]).getD k default).name =
            (load_known_faces (initModule (1 / 2)) [(1, "A", [(1:ℚ), 0])]).1.known_face_names.getD
              (argmaxIdx (compute_similarities_batch
                (load_known_faces (initModule (1 / 2)) [(1, "A", [(1:ℚ), 0])]).1 e)) "" ∧
          ((recognize_faces (load_known_faces (initModule (1 / 2)) [(1, "A", [(1:ℚ), 0])]).1
              [⟨(0, 0, 0, 0), some [(3:ℚ), 4], 0⟩]).getD k default).user_id =
            some ((load_known_faces (initModule (1 / 2)) [(1, "A", [(1:ℚ), 0])]).1.known_face_ids.getD
              (argmaxIdx (compute_similarities_batch
                (load_known_faces (initModule (1 / 2)) [(1, "A", [(1:ℚ), 0])]).1 e)) 0) ∧
          ((recognize_faces (load_known_faces (initModule (1 / 2)) [(1, "A", [(1:ℚ), 0])]).1
              [⟨(0, 0, 0, 0), some [(3:ℚ), 4], 0⟩]).getD k default).confidence =
            (compute_similarities_batch
                (load_known_faces (initModule (1 / 2)) [(1, "A", [(1:ℚ), 0])]).1 e).getD
              (argmaxIdx (compute_similarities_batch
                (load_known_faces (initModule (1 / 2)) [(1, "A", [(1:ℚ), 0])]).1 e)) 0) ∧
        ((compute_similarities_batch
              (load_known_faces (initModule (1 / 2)) [(1, "A", [(1:ℚ), 0])]).1 e).getD
            (argmaxIdx (compute_similarities_batch
              (load_known_faces (initModule (1 / 2)) [(1, "A", [(1:ℚ), 0])]).1 e)) 0 <
            (load_known_faces (initModule (1 / 2)) [(1, "A", [(1:ℚ), 0])]).1.tolerance →
          ((recognize_faces (load_known_faces (initModule (1 / 2)) [(1, "A", [(1:ℚ), 0])]).1
              [⟨(0, 0, 0, 0), some [(3:ℚ), 4], 0⟩]).getD k default).name = "Unknown" ∧
          ((recognize_faces (load_known_faces (initModule (1 / 2)) [(1, "A", [(1:ℚ), 0])]).1
              [⟨(0, 0, 0, 0), some [(3:ℚ), 4], 0⟩]).getD k default).user_id = none ∧
          ((recognize_faces (load_known_faces (initModule (1 / 2)) [(1, "A", [(1:ℚ), 0])]).1
              [⟨(0, 0, 0, 0), some [(3:ℚ), 4], 0⟩]).getD k default).confidence = 0))) :=
  recognize_faces_entry_invariant _
    ⟨rfl, rfl, fun hc => absurd hc (by simp [load_known_faces, allSameLength]),
      fun _ => rfl⟩
    [⟨(0, 0, 0, 0), some [(3:ℚ), 4], 0⟩]

/-- C5: the cooldown guard triggers (and records `now` as the user's new
last-trigger time) exactly when no prior timestamp is recorded or
`now - last >= window`; otherwise it returns false and leaves the state
untouched.  In particular, after a trigger recorded at time `last`, a call
at `last + window/2` is suppressed without mutation while a call at
`last + 3·window/2` triggers. -/
theorem cooldown_should_trigger_spec (cd : List (Nat × ℚ)) (u : Nat)
    (now w : ℚ) :
    ((process_attendance_guard cd u now w).1 = true ↔
      cd.lookup u = none ∨
      ∃ last, cd.lookup u = some last ∧ w ≤ now - last) ∧
    ((process_attendance_guard cd u now w).1 = true →
      (process_attendance_guard cd u now w).2.lookup u = some now) ∧
    ((process_attendance_guard cd u now w).1 = false →
      (process_attendance_guard cd u now w).2 = cd) ∧
    (∀ last, cd.lookup u = some last → 0 < w →
      (process_attendance_guard cd u (last + w / 2) w).1 = false ∧
      (process_attendance_guard cd u (last + w / 2) w).2 = cd ∧
      (process_attendance_guard cd u (last + 3 * w / 2) w).1 = true) := by
  have main : ∀ now' : ℚ,
      ((process_attendance_guard cd u now' w).1 = true ↔
        cd.lookup u = none ∨
        ∃ last, cd.lookup u = some last ∧ w ≤ now' - last) ∧
      ((process_attendance_guard cd u now' w).1 = true →
        (process_attendance_guard cd u now' w).2.lookup u = some now') ∧
      ((process_attendance_guard cd u now' w).1 = false →
        (process_attendance_guard cd u now' w).2 = cd) := by
    intro now'
    cases hl : cd.lookup u with
    | none =>
      have hres : process_attendance_guard cd u now' w = (true, (u, now') :: cd) := by
        simp [process_attendance_guard, hl]
      refine ⟨?_, ?_, ?_⟩
      · rw [hres]
        simp [hl]
      · intro _
        rw [hres]
        simp [List.lookup]
      · intro hfalse
        rw [hres] at hfalse
        simp at hfalse
    | some last =>
      by_cases hlt : now' - last < w
      · have hres : process_attendance_guard cd u now' w = (false, cd) := by
          simp [process_attendance_guard, hl, if_pos hlt]
        refine ⟨?_, ?_, ?_⟩
        · rw [hres]
          constructor
          · intro hc
            simp at hc
          · rintro (hc | ⟨last2, hl2, hge⟩)
            · exact Option.noConfusion hc
            · injection hl2 with hkey
              subst hkey
              exact absurd hge (not_le.mpr hlt)
        · intro htrig
          rw [hres] at htrig
          simp at htrig
        · intro _
          rw [hres]
      · have hres : process_attendance_guard cd u now' w = (true, (u, now') :: cd) := by
          simp [process_attendance_guard, hl, if_neg hlt]
        refine ⟨?_, ?_, ?_⟩
        · rw [hres]
          constructor
          · intro _
            exact Or.inr ⟨last, rfl, le_of_not_lt hlt⟩
          · intro _
            rfl
        · intro _
          rw [hres]
          simp [List.lookup]
        · intro hfalse
          rw [hres] at hfalse
          simp at hfalse
  refine ⟨(main now).1, (main now).2.1, (main now).2.2, ?_⟩
  intro last hl hw
  have h1 : (last + w / 2) - last < w := by linarith
  have h2 : ¬((last + 3 * w / 2) - last < w) := by
    intro hc
    linarith
  have hresA : process_attendance_guard cd u (last + w / 2) w = (false, cd) := by
    simp only [process_attendance_guard, hl]
    rw [if_pos h1]
  have hresB : process_attendance_guard cd u (last + 3 * w / 2) w =
      (true, (u, last + 3 * w / 2) :: cd) := by
    simp only [process_attendance_guard, hl]
    rw [if_neg h2]
  exact ⟨by rw [hresA], by rw [hresA], by rw [hresB]⟩

/-- Witness for `cooldown_should_trigger_spec` on a state with one
recorded trigger for user 0 at time 0 and a 5-second window. -/
theorem cooldown_should_trigger_spec_witness :
    ((process_attendance_guard [(0, (0:ℚ))] 0 10 5).1 = true ↔
      [(0, (0:ℚ))].lookup 0 = none ∨
      ∃ last, [(0, (0:ℚ))].lookup 0 = some last ∧ 5 ≤ 10 - last) ∧
    ((process_attendance_guard [(0, (0:ℚ))] 0 10 5).1 = true →
      (process_attendance_guard [(0, (0:ℚ))] 0 10 5).2.lookup 0 = some 10) ∧
    ((process_attendance_guard [(0, (0:ℚ))] 0 10 5).1 = false →
      (process_attendance_guard [(0, (0:ℚ))] 0 10 5).2 = [(0, (0:ℚ))]) ∧
    (∀ last, [(0, (0:ℚ))].lookup 0 = some last → 0 < (5:ℚ) →
      (process_attendance_guard [(0, (0:ℚ))] 0 (last + 5 / 2) 5).1 = false ∧
      (process_attendance_guard [(0, (0:ℚ))] 0 (last + 5 / 2) 5).2 = [(0, (0:ℚ))] ∧
      (process_attendance_guard [(0, (0:ℚ))] 0 (last + 3 * 5 / 2) 5).1 = true) :=
  cooldown_should_trigger_spec [(0, (0:ℚ))] 0 10 5

/-- C6: with `process_every_n = N ≥ 1`, each per-frame advance increments
the frame counter; on frames where the incremented counter is not a
multiple of `N` it returns the cached `last_faces` field itself, leaves it
unchanged and invokes no attendance processing; on multiples of `N` it
recomputes (recognition in attendance mode, detection in enrollment mode),
replaces the cache with the rescaled results, and passes exactly the
recognized faces with a present `user_id` and a name other than
`"Unknown"` to attendance processing. -/
theorem update_camera_throttle (s : SchedulerState)
    (m : FaceRecognitionModule) (mode : Mode) (obss : List Observation)
    (hN : 1 ≤ s.process_every_n_frames) :
    (update_camera s m mode obss).1.frame_count = s.frame_count + 1 ∧
    ((s.frame_count + 1) % s.process_every_n_frames ≠ 0 →
      (update_camera s m mode obss).2.1 = s.last_faces ∧
      (update_camera s m mode obss).1.last_faces = s.last_faces ∧
      (update_camera s m mode obss).2.2 = []) ∧
    ((s.frame_count + 1) % s.process_every_n_frames = 0 →
      (mode = Mode.attendance →
        (update_camera s m mode obss).2.1 =
          (recognize_faces m obss).map (scale_face (1 / s.recognition_scale)) ∧
        (update_camera s m mode obss).1.last_faces =
          (update_camera s m mode obss).2.1 ∧
        (update_camera s m mode obss).2.2 =
          (recognize_faces m obss).filter
            (fun f => f.user_id.isSome && f.name != "Unknown")) ∧
      (mode = Mode.register →
        (update_camera s m mode obss).2.1 =
          (detect_faces obss).map (scale_face (1 / s.recognition_scale)) ∧
        (update_camera s m mode obss).1.last_faces =
          (update_camera s m mode obss).2.1 ∧
        (update_camera s m mode obss).2.2 = [])) := by
  by_cases hmod : (s.frame_count + 1) % s.process_every_n_frames = 0
  · refine ⟨?_, fun hc => absurd hmod hc, fun _ => ⟨?_, ?_⟩⟩
    · cases mode <;> simp [update_camera, hmod]
    · intro hmode
      subst hmode
      refine ⟨?_, ?_, ?_⟩ <;> simp [update_camera, hmod]
    · intro hmode
      subst hmode
      refine ⟨?_, ?_, ?_⟩ <;> simp [update_camera, hmod]
  · refine ⟨?_, fun _ => ⟨?_, ?_, ?_⟩, fun hc => absurd hc hmod⟩ <;>
      simp [update_camera, hmod]

/-- Witness for `update_camera_throttle` with the source configuration
(`N = 3`, scale one half) on a fresh counter and no detected faces. -/
theorem update_camera_throttle_witness :
    (update_camera ⟨0, 3, 1 / 2, []⟩ (initModule (1 / 2)) Mode.attendance []).1.frame_count =
      (0 : Nat) + 1 ∧
    (((0 : Nat) + 1) % (3 : Nat) ≠ 0 →
      (update_camera ⟨0, 3, 1 / 2, []⟩ (initModule (1 / 2)) Mode.attendance []).2.1 = [] ∧
      (update_camera ⟨0, 3, 1 / 2, []⟩ (initModule (1 / 2)) Mode.attendance []).1.last_faces = [] ∧
      (update_camera ⟨0, 3, 1 / 2, []⟩ (initModule (1 / 2)) Mode.attendance []).2.2 = []) ∧
    (((0 : Nat) + 1) % (3 : Nat) = 0 →
      (Mode.attendance = Mode.attendance →
        (update_camera ⟨0, 3, 1 / 2, []⟩ (initModule (1 / 2)) Mode.attendance []).2.1 =
          (recognize_faces (initModule (1 / 2)) []).map (scale_face (1 / (1 / 2))) ∧
        (update_camera ⟨0, 3, 1 / 2, []⟩ (initModule (1 / 2)) Mode.attendance []).1.last_faces =
          (update_camera ⟨0, 3, 1 / 2, []⟩ (initModule (1 / 2)) Mode.attendance []).2.1 ∧
        (update_camera ⟨0, 3, 1 / 2, []⟩ (initModule (1 / 2)) Mode.attendance []).2.2 =
          (recognize_faces (initModule (1 / 2)) []).filter
            (fun f => f.user_id.isSome && f.name != "Unknown")) ∧
      (Mode.attendance = Mode.register →
        (update_camera ⟨0, 3, 1 / 2, []⟩ (initModule (1 / 2)) Mode.attendance []).2.1 =
          (detect_faces []).map (scale_face (1 / (1 / 2))) ∧
        (update_camera ⟨0, 3, 1 / 2, []⟩ (initModule (1 / 2)) Mode.attendance []).1.last_faces =
          (update_camera ⟨0, 3, 1 / 2, []⟩ (initModule (1 / 2)) Mode.attendance []).2.1 ∧
        (update_camera ⟨0, 3, 1 / 2, []⟩ (initModule (1 / 2)) Mode.attendance []).2.2 = [])) :=
  update_camera_throttle ⟨0, 3, 1 / 2, []⟩ (initModule (1 / 2))
    Mode.attendance [] (by decide)

lemma ratFloor_eq_intFloor (q : ℚ) : Rat.floor q = ⌊q⌋ := by
  rw [Rat.floor_def', Rat.floor_def]

lemma pyInt_intCast (n : Int) : pyInt (n : ℚ) = n := by
  unfold pyInt
  rw [ratFloor_eq_intFloor, ratFloor_eq_intFloor]
  by_cases h : ((n : ℚ) < 0)
  · rw [if_pos h]
    rw [show (-(n : ℚ)) = ((-n : ℤ) : ℚ) by push_cast; ring, Int.floor_intCast]
    ring
  · rw [if_neg h, Int.floor_intCast]

/-- C8 counterexample: bounding-box coordinates are not rounded to the
nearest integer pixel.  With `working_scale = 3/5` the scale factor is
`5/3`; a working-frame coordinate of 1 maps to `5/3 ≈ 1.67`, which the
code (`int(...)`) truncates to 1 while the nearest integer is 2. -/
theorem scale_truncates_not_rounds_cex :
    scaleCoord 1 (1 / ((3:ℚ) / 5)) ≠ specRound ((1:ℚ) * (1 / ((3:ℚ) / 5))) ∧
    scaleCoord 1 (1 / ((3:ℚ) / 5)) = 1 ∧
    specRound ((1:ℚ) * (1 / ((3:ℚ) / 5))) = 2 := by
  have h1 : scaleCoord 1 (1 / ((3:ℚ) / 5)) = 1 := by
    unfold scaleCoord pyInt
    rw [ratFloor_eq_intFloor, ratFloor_eq_intFloor]
    norm_num
  have h2 : specRound ((1:ℚ) * (1 / ((3:ℚ) / 5))) = 2 := by
    unfold specRound
    rw [ratFloor_eq_intFloor]
    norm_num
  exact ⟨by rw [h1, h2]; decide, h1, h2⟩

/-- C8 (amended): each bounding-box coordinate is scaled independently by
`1/working_scale` and truncated toward zero (Python `int()`), not rounded
to the nearest integer; with the shipped `working_scale = 0.5` the scaled
value is an exact integer (twice the coordinate), so truncation and
nearest-integer rounding coincide there. -/
theorem scale_shipped_factor_exact (t r b l : Int) :
    scaleLocation (t, r, b, l) (1 / ((1:ℚ) / 2)) =
      (specRound ((t:ℚ) * (1 / ((1:ℚ) / 2))),
        specRound ((r:ℚ) * (1 / ((1:ℚ) / 2))),
        specRound ((b:ℚ) * (1 / ((1:ℚ) / 2))),
        specRound ((l:ℚ) * (1 / ((1:ℚ) / 2)))) ∧
    scaleCoord t (1 / ((1:ℚ) / 2)) = 2 * t := by
  have hfac : (1 / ((1:ℚ) / 2)) = 2 := by norm_num
  have hcoord : ∀ c : Int, scaleCoord c (1 / ((1:ℚ) / 2)) = 2 * c := by
    intro c
    unfold scaleCoord
    rw [hfac, show ((c:ℚ) * 2) = ((2 * c : ℤ) : ℚ) by push_cast; ring,
      pyInt_intCast]
  have hround : ∀ c : Int, specRound ((c:ℚ) * (1 / ((1:ℚ) / 2))) = 2 * c := by
    intro c
    unfold specRound
    rw [hfac, ratFloor_eq_intFloor,
      show ((c:ℚ) * 2 + 1 / 2) = ((2 * c : ℤ) : ℚ) + 1 / 2 by push_cast; ring,
      Int.floor_int_add]
    norm_num
  refine ⟨?_, hcoord t⟩
  unfold scaleLocation
  simp only [hcoord, hround]

end FaceAttendance
